import Mathlib

/-!
Verification development for the h264-to-mp4 muxer
(`h264_nalu_reader.py`, `mp4writer.py`).

Byte buffers are modelled as `List Nat` (each element one byte value).
`struct.pack` fields are modelled by explicit big-endian digit lists with
`% 256` digits.  Fallible methods (Python `raise ValueError`) are modelled
with `Except`; since a raising Python method leaves the already-performed
mutations of `self` in place, the error value carries the mutated state.
-/

/-- struct.pack of a 4-byte big-endian unsigned integer (value taken mod 2^32). -/
def be32 (n : Nat) : List Nat :=
  [n / 16777216 % 256, n / 65536 % 256, n / 256 % 256, n % 256]

/-- struct.pack of a 2-byte big-endian unsigned integer (value taken mod 2^16). -/
def be16 (n : Nat) : List Nat :=
  [n / 256 % 256, n % 256]

/-- Independent reader for a 4-byte big-endian field (first four bytes of `l`). -/
def readBE32 (l : List Nat) : Nat :=
  l.getD 0 0 * 16777216 + l.getD 1 0 * 65536 + l.getD 2 0 * 256 + l.getD 3 0

/-- Overwrite `data` into `file` at byte position `pos`, zero-padding if the
file is shorter than `pos` (semantics of `seek` + `write` on a `wb` file). -/
def writeAt (file : List Nat) (pos : Nat) (data : List Nat) : List Nat :=
  file.take pos ++ List.replicate (pos - file.length) 0 ++ data ++ file.drop (pos + data.length)

/-! ## h264_nalu_reader.py -/

/-- Loop body of `find_nalu_start` (the `while pos < len(buffer) - 3` loop).
`fuel` bounds the number of iterations; the caller passes `buffer.length + 1`,
which always exceeds the iteration count, so the fuel-exhaustion branch
returns the same `none` the loop-exit path returns. -/
def find_loop (buffer : List Nat) : Nat → Nat → Option (Nat × Nat)
  | 0, _ => none
  | fuel + 1, pos =>
    if pos < buffer.length - 3 then
      -- check the 3-byte start code 00 00 01
      if buffer.getD pos 0 = 0 ∧ buffer.getD (pos + 1) 0 = 0 ∧ buffer.getD (pos + 2) 0 = 1 then
        some (pos, 3)
      -- check the 4-byte start code 00 00 00 01 (guarded by pos < len - 4)
      else if pos < buffer.length - 4 ∧ buffer.getD pos 0 = 0 ∧ buffer.getD (pos + 1) 0 = 0
          ∧ buffer.getD (pos + 2) 0 = 0 ∧ buffer.getD (pos + 3) 0 = 1 then
        some (pos, 4)
      else
        find_loop buffer fuel (pos + 1)
    else
      none

/-- `find_nalu_start(buffer, start_pos)`: returns `some (pos, start_code_len)`
for Python's `(pos, 3)` / `(pos, 4)`, and `none` for Python's `(-1, 0)`. -/
def find_nalu_start (buffer : List Nat) (start_pos : Nat) : Option (Nat × Nat) :=
  find_loop buffer (buffer.length + 1) start_pos

/-- `parse_nalu(buffer, start_pos, start_code_len)`.  Returns
`(some (nalu_type, nalu_payload), remaining_buffer)` on success and
`(none, buffer)` for Python's `(None, None, buffer)` branch. -/
def parse_nalu (buffer : List Nat) (start_pos start_code_len : Nat) :
    Option (Nat × List Nat) × List Nat :=
  if start_pos + start_code_len ≥ buffer.length then
    (none, buffer)
  else
    let nalu_header := buffer.getD (start_pos + start_code_len) 0
    let nalu_type := nalu_header % 32          -- nalu_header & 0x1F
    let payload_start := start_pos + start_code_len + 1
    match find_nalu_start buffer payload_start with
    | none => (some (nalu_type, buffer.drop payload_start), [])
    | some (next_start_pos, _) =>
        (some (nalu_type, (buffer.take next_start_pos).drop payload_start),
         buffer.drop next_start_pos)

/-- One record appended to `nalu_list` by `read_nalu_from_file`:
the dict `{'type': ..., 'payload': ..., 'start_code_len': ...}`. -/
structure NaluRec where
  ty : Nat
  payload : List Nat
  start_code_len : Nat
deriving DecidableEq, Repr

/-- The `while True` loop of `read_nalu_from_file`.  `fuel` bounds the number
of iterations; every productive iteration drops at least 4 bytes of the
buffer, so `buffer.length + 1` fuel always suffices (see the termination
theorem for claim C10). -/
def read_nalu_loop : Nat → List Nat → Nat → List NaluRec
  | 0, _, _ => []
  | fuel + 1, buffer, current_pos =>
    match find_nalu_start buffer current_pos with
    | none => []
    | some (start_pos, start_code_len) =>
      match parse_nalu buffer start_pos start_code_len with
      | (none, remaining) => read_nalu_loop fuel remaining 0
      | (some (ty, payload), remaining) =>
          ⟨ty, payload, start_code_len⟩ :: read_nalu_loop fuel remaining 0

/-- `read_nalu_from_file` with the file contents already in `buffer`
(the `open`/`read` I/O is external glue). -/
def read_nalu_list (buffer : List Nat) : List NaluRec :=
  read_nalu_loop (buffer.length + 1) buffer 0

/-! ### Start-code predicates (used to state the scanner's contract) -/

/-- A 3-byte start code `00 00 01` begins at position `p`. -/
def code3At (b : List Nat) (p : Nat) : Prop :=
  b.getD p 0 = 0 ∧ b.getD (p + 1) 0 = 0 ∧ b.getD (p + 2) 0 = 1

/-- A 4-byte start code `00 00 00 01` begins at position `p`. -/
def code4At (b : List Nat) (p : Nat) : Prop :=
  b.getD p 0 = 0 ∧ b.getD (p + 1) 0 = 0 ∧ b.getD (p + 2) 0 = 0 ∧ b.getD (p + 3) 0 = 1

/-- The scanner reports a hit `(p, l)`: either the 3-byte code inside the
scanned range, or the 4-byte code inside its stricter range with the 3-byte
test having failed first. -/
def scanHit (b : List Nat) (p l : Nat) : Prop :=
  (l = 3 ∧ p < b.length - 3 ∧ code3At b p) ∨
  (l = 4 ∧ p < b.length - 3 ∧ p < b.length - 4 ∧ code4At b p ∧ ¬ code3At b p)

/-- Position `q` triggers the scanner (either branch) when visited. -/
def scanHitAny (b : List Nat) (q : Nat) : Prop :=
  code3At b q ∨ (q < b.length - 4 ∧ code4At b q)

/-! ## mp4writer.py — MP4Writer state -/

/-- The mutable state of a `MP4Writer` instance, together with the output
file: `file` holds the bytes written so far and `tell` the write cursor
(`self.output.tell()`). -/
structure MP4Writer where
  width : Nat
  height : Nat
  fps : Nat
  timescale : Nat
  frame_duration : Nat
  sps : Option (List Nat)
  pps : Option (List Nat)
  frame_count : Nat
  sample_sizes : List Nat
  sample_offsets : List Nat
  current_offset : Nat
  nalu_buffer : List (List Nat)
  i_frame_ids : List Nat
  moov_position : Nat
  file : List Nat
  tell : Nat
deriving Repr

/-- ASCII bytes of the tag `'ftyp'`. -/
def ftypTag : List Nat := [102, 116, 121, 112]
/-- ASCII bytes of `'mp42'`. -/
def mp42Tag : List Nat := [109, 112, 52, 50]
/-- ASCII bytes of `'isom'`. -/
def isomTag : List Nat := [105, 115, 111, 109]
/-- ASCII bytes of `'moov'`. -/
def moovTag : List Nat := [109, 111, 111, 118]
/-- ASCII bytes of `'free'`. -/
def freeTag : List Nat := [102, 114, 101, 101]
/-- ASCII bytes of `'mdat'`. -/
def mdatTag : List Nat := [109, 100, 97, 116]
/-- ASCII bytes of `'mvhd'`. -/
def mvhdTag : List Nat := [109, 118, 104, 100]
/-- ASCII bytes of `'trak'`. -/
def trakTag : List Nat := [116, 114, 97, 107]
/-- ASCII bytes of `'tkhd'`. -/
def tkhdTag : List Nat := [116, 107, 104, 100]
/-- ASCII bytes of `'mdia'`. -/
def mdiaTag : List Nat := [109, 100, 105, 97]
/-- ASCII bytes of `'mdhd'`. -/
def mdhdTag : List Nat := [109, 100, 104, 100]
/-- ASCII bytes of `'hdlr'`. -/
def hdlrTag : List Nat := [104, 100, 108, 114]
/-- ASCII bytes of `'vide'`. -/
def videTag : List Nat := [118, 105, 100, 101]
/-- ASCII bytes of `'minf'`. -/
def minfTag : List Nat := [109, 105, 110, 102]
/-- ASCII bytes of `'vmhd'`. -/
def vmhdTag : List Nat := [118, 109, 104, 100]
/-- ASCII bytes of `'dinf'`. -/
def dinfTag : List Nat := [100, 105, 110, 102]
/-- ASCII bytes of `'dref'`. -/
def drefTag : List Nat := [100, 114, 101, 102]
/-- ASCII bytes of `'url '`. -/
def urlTag : List Nat := [117, 114, 108, 32]
/-- ASCII bytes of `'stbl'`. -/
def stblTag : List Nat := [115, 116, 98, 108]
/-- ASCII bytes of `'stsd'`. -/
def stsdTag : List Nat := [115, 116, 115, 100]
/-- ASCII bytes of `'avc1'`. -/
def avc1Tag : List Nat := [97, 118, 99, 49]
/-- ASCII bytes of `'avcC'`. -/
def avcCTag : List Nat := [97, 118, 99, 67]
/-- ASCII bytes of `'stts'`. -/
def sttsTag : List Nat := [115, 116, 116, 115]
/-- ASCII bytes of `'stss'`. -/
def stssTag : List Nat := [115, 116, 115, 115]
/-- ASCII bytes of `'stsc'`. -/
def stscTag : List Nat := [115, 116, 115, 99]
/-- ASCII bytes of `'stsz'`. -/
def stszTag : List Nat := [115, 116, 115, 122]
/-- ASCII bytes of `'stco'`. -/
def stcoTag : List Nat := [115, 116, 99, 111]
/-- ASCII bytes of `b'VideoHandler\x00'` (13 bytes). -/
def videoHandlerName : List Nat := [86, 105, 100, 101, 111, 72, 97, 110, 100, 108, 101, 114, 0]
/-- ASCII bytes of `b'AVC Coding'` padded with 22 zero bytes (32-byte compressor name). -/
def compressorName : List Nat :=
  [65, 86, 67, 32, 67, 111, 100, 105, 110, 103] ++ List.replicate 22 0

/-- `MP4Writer._create_box`: 4-byte big-endian size `8 + len(box_data)`,
then the 4-byte ASCII tag, then the payload. -/
def create_box (tag : List Nat) (box_data : List Nat) : List Nat :=
  be32 (8 + box_data.length) ++ tag ++ box_data

/-- Payload handed to `_write_box('ftyp', ...)` by `_write_ftyp`
(note the source duplicates the `b'ftyp'` tag inside the payload). -/
def ftyp_payload : List Nat :=
  ftypTag ++ mp42Tag ++ be32 0 ++ mp42Tag ++ isomTag

/-- `MP4Writer.__init__(output, width, height, fps, timescale)`: writes the
ftyp box, then reserves `16*1024 + 8` zero bytes for moov + the mdat header. -/
def mkWriter (width height fps timescale : Nat) : MP4Writer :=
  let ftypBox := create_box ftypTag ftyp_payload
  { width := width, height := height, fps := fps, timescale := timescale
    frame_duration := timescale / fps
    sps := none, pps := none
    frame_count := 0
    sample_sizes := [], sample_offsets := []
    current_offset := ftypBox.length + (16 * 1024 + 8)
    nalu_buffer := [], i_frame_ids := []
    moov_position := ftypBox.length
    file := ftypBox ++ List.replicate (16 * 1024 + 8) 0
    tell := ftypBox.length + (16 * 1024 + 8) }

/-- Body of the write loop in `_write_frame` for one buffered NALU:
`self.output.write(struct.pack('>I', len(nalu)))`, `self.output.write(nalu)`,
then the source's `self.current_offset += self.output.tell()` — reproduced
verbatim: it adds the file *position* after the two writes, not the number
of bytes written. -/
def frame_step (acc : MP4Writer) (n : List Nat) : MP4Writer :=
  let data := be32 n.length ++ n
  { acc with
    file := writeAt acc.file acc.tell data
    tell := acc.tell + data.length
    current_offset := acc.current_offset + (acc.tell + data.length) }

/-- `MP4Writer._write_frame`.  Records the sample offset and size and writes
each buffered NALU as a 4-byte big-endian length prefix plus the NALU bytes. -/
def write_frame (w : MP4Writer) : MP4Writer :=
  if w.nalu_buffer.isEmpty then w
  else
    let w1 := { w with sample_offsets := w.sample_offsets ++ [w.current_offset] }
    let frame_size := w.nalu_buffer.foldl (fun s n => s + (4 + n.length)) 0
    let w2 := w1.nalu_buffer.foldl frame_step w1
    { w2 with
      sample_sizes := w2.sample_sizes ++ [frame_size]
      frame_count := w2.frame_count + 1
      nalu_buffer := [] }

/-- `MP4Writer.add_nalu(nalu)`.  A raised `ValueError` is modelled as
`.error (message, state)` where `state` is `self` at the moment of the raise
(the NALU has already been appended to `nalu_buffer` at that point). -/
def add_nalu (w : MP4Writer) (nalu : List Nat) : Except (String × MP4Writer) MP4Writer :=
  if nalu.length = 0 then .ok w   -- nalu_type = None: no branch taken
  else
    let nalu_type := nalu.getD 0 0 % 32   -- nalu[0] & 0x1F
    if nalu_type = 7 then .ok { w with sps := some nalu }
    else if nalu_type = 8 then .ok { w with pps := some nalu }
    else if nalu_type = 1 ∨ nalu_type = 5 then
      let w1 := { w with nalu_buffer := w.nalu_buffer ++ [nalu] }
      if nalu_type = 5 ∧ (w1.sps = none ∨ w1.pps = none) then
        .error ("IDR frame found but SPS/PPS not available", w1)
      else
        let w2 := write_frame w1
        .ok (if nalu_type = 5 then { w2 with i_frame_ids := w2.i_frame_ids ++ [w2.frame_count] }
             else w2)
    else .ok w

/-! ### moov box builders (`_write_mvhd` … `_write_stco`, all pure) -/

/-- `MP4Writer._create_avcc` given the cached SPS and PPS payloads
(the source raises before this point when either is missing; `finalize`
guards the call, so the arguments are the unwrapped cached values). -/
def create_avcc (sps pps : List Nat) : List Nat :=
  [1]                                  -- configuration version 0x01
  ++ (sps.take 4).drop 1               -- sps[1:4]: profile, compatibility, level
  ++ [255]                             -- NALU length size - 1 (0xff)
  ++ [1] ++ be16 sps.length ++ sps     -- one SPS record
  ++ [1] ++ be16 pps.length ++ pps     -- one PPS record

/-- `MP4Writer._write_mvhd`. -/
def write_mvhd (w : MP4Writer) : List Nat :=
  create_box mvhdTag <|
    be32 0 ++ be32 1743651892 ++ be32 1743651892
    ++ be32 w.timescale ++ be32 (w.frame_count * w.frame_duration)
    ++ be32 0x00010000 ++ be16 0x0100 ++ be16 0 ++ be32 0 ++ be32 0
    ++ be32 0x10000 ++ be32 0 ++ be32 0 ++ be32 0 ++ be32 0x10000
    ++ be32 0 ++ be32 0 ++ be32 0 ++ be32 0x10000
    ++ be32 0 ++ be32 0 ++ be32 0 ++ be32 0 ++ be32 0 ++ be32 0
    ++ be32 2

/-- `MP4Writer._write_tkhd`. -/
def write_tkhd (w : MP4Writer) : List Nat :=
  create_box tkhdTag <|
    be32 0x00000007 ++ be32 0 ++ be32 0 ++ be32 1 ++ be32 0
    ++ be32 (w.frame_count * w.frame_duration)
    ++ be32 0 ++ be32 0 ++ be16 0 ++ be16 0 ++ be16 0 ++ be16 0
    ++ be32 0x00010000 ++ be32 0 ++ be32 0 ++ be32 0 ++ be32 0x00010000
    ++ be32 0 ++ be32 0 ++ be32 0 ++ be32 0x40000000
    ++ be32 (w.width * 65536) ++ be32 (w.height * 65536)

/-- `MP4Writer._write_mdhd`. -/
def write_mdhd (w : MP4Writer) : List Nat :=
  create_box mdhdTag <|
    be32 0 ++ be32 0 ++ be32 0 ++ be32 w.timescale
    ++ be32 (w.frame_count * w.frame_duration) ++ be16 0x55c4 ++ be16 0

/-- `MP4Writer._write_hdlr`. -/
def write_hdlr : List Nat :=
  create_box hdlrTag <|
    be32 0 ++ be32 0 ++ videTag ++ be32 0 ++ be32 0 ++ be32 0 ++ videoHandlerName

/-- `MP4Writer._write_vmhd`. -/
def write_vmhd : List Nat :=
  create_box vmhdTag <| be32 0x00000001 ++ be16 0 ++ be16 0 ++ be16 0 ++ be16 0

/-- `MP4Writer._write_dinf`. -/
def write_dinf : List Nat :=
  create_box dinfTag <| create_box drefTag <|
    be32 0 ++ be32 1 ++ create_box urlTag (be32 1)

/-- `MP4Writer._write_stsd` (avc1 sample entry wrapping the avcC record). -/
def write_stsd (w : MP4Writer) : List Nat :=
  let avc1_entry :=
    be32 0 ++ be16 0 ++ be16 1 ++ be16 0 ++ be16 0
    ++ be32 0 ++ be32 0 ++ be32 0
    ++ be16 w.width ++ be16 w.height
    ++ be32 0x00480000 ++ be32 0x00480000 ++ be32 0 ++ be16 1
    ++ compressorName ++ be16 0x0018 ++ be16 0xffff
    ++ create_box avcCTag (create_avcc (w.sps.getD []) (w.pps.getD []))
  create_box stsdTag (be32 0 ++ be32 1 ++ create_box avc1Tag avc1_entry)

/-- `MP4Writer._write_stts`. -/
def write_stts (w : MP4Writer) : List Nat :=
  create_box sttsTag <| be32 0 ++ be32 1 ++ be32 w.frame_count ++ be32 w.frame_duration

/-- `MP4Writer._write_stss` (one 4-byte entry per recorded I-frame id). -/
def write_stss (w : MP4Writer) : List Nat :=
  create_box stssTag <| be32 0 ++ be32 w.i_frame_ids.length ++ (w.i_frame_ids.map be32).flatten

/-- `MP4Writer._write_stsc`: a single entry
`(first_chunk = 1, samples_per_chunk = frame_count, sample_description_index = 1)`. -/
def write_stsc (w : MP4Writer) : List Nat :=
  create_box stscTag <| be32 0 ++ be32 1 ++ be32 1 ++ be32 w.frame_count ++ be32 1

/-- `MP4Writer._write_stsz` (sample_size = 0, then one entry per sample). -/
def write_stsz (w : MP4Writer) : List Nat :=
  create_box stszTag <|
    be32 0 ++ be32 0 ++ be32 w.sample_sizes.length ++ (w.sample_sizes.map be32).flatten

/-- `MP4Writer._write_stco`: entry count 1 and only `sample_offsets[0]`
(the source indexes `[0]` unconditionally; `finalize` guarantees at least one
sample, so the list is non-empty there and `getD` is exact). -/
def write_stco (w : MP4Writer) : List Nat :=
  create_box stcoTag <| be32 0 ++ be32 1 ++ be32 (w.sample_offsets.getD 0 0)

/-- `MP4Writer._write_stbl`. -/
def write_stbl (w : MP4Writer) : List Nat :=
  create_box stblTag <|
    write_stsd w ++ write_stts w ++ write_stss w ++ write_stsc w ++ write_stsz w ++ write_stco w

/-- `MP4Writer._write_minf`. -/
def write_minf (w : MP4Writer) : List Nat :=
  create_box minfTag <| write_vmhd ++ write_dinf ++ write_stbl w

/-- `MP4Writer._write_mdia`. -/
def write_mdia (w : MP4Writer) : List Nat :=
  create_box mdiaTag <| write_mdhd w ++ write_hdlr ++ write_minf w

/-- `MP4Writer._write_trak`. -/
def write_trak (w : MP4Writer) : List Nat :=
  create_box trakTag <| write_tkhd w ++ write_mdia w

/-- The `moov_data` assembled by `_write_moov` (mvhd ++ trak). -/
def write_moov_data (w : MP4Writer) : List Nat :=
  write_mvhd w ++ write_trak w

/-- The file produced by the tail of `finalize` (after its error checks):
backpatch the moov box at `moov_position`, write the `free` filler box after
it, then write the mdat header at `moov_position + 16*1024`.
`mdat_len` reproduces the source expression
`current_offset - moov_position - 16*1024 - 8`. -/
def finalize_file (w : MP4Writer) : List Nat :=
  let mdat_len := w.current_offset - w.moov_position - 16 * 1024 - 8
  let moov_data := write_moov_data w
  let moov_len := 8 + moov_data.length
  let f1 := writeAt w.file w.moov_position (create_box moovTag moov_data)
  let free_data := List.replicate (16 * 1024 - moov_len - 8) 0
  let f2 := writeAt f1 (w.moov_position + moov_len) (create_box freeTag free_data)
  writeAt f2 (w.moov_position + 16 * 1024) (be32 (mdat_len + 8) ++ mdatTag)

/-- `MP4Writer.finalize()`: flush any buffered NALUs, fail when SPS/PPS are
missing, fail when no frame was written, otherwise produce the final file. -/
def finalize (w : MP4Writer) : Except (String × MP4Writer) (List Nat) :=
  let w1 := if w.nalu_buffer.isEmpty then w else write_frame w
  if w1.sps = none ∨ w1.pps = none then
    .error ("SPS/PPS not available for MP4 creation", w1)
  else if w1.frame_count = 0 then
    .error ("No frame data available for MP4 creation", w1)
  else
    .ok (finalize_file w1)

/-! ### Helpers for stating concrete runs -/

/-- Run `add_nalu`, keeping the post-state also when it raised. -/
def addOk (w : MP4Writer) (nalu : List Nat) : MP4Writer :=
  match add_nalu w nalu with
  | .ok w2 => w2
  | .error e => e.2

/-- `true` iff the `Except` value is a success. -/
def isOkE {ε α : Type} : Except ε α → Bool
  | .ok _ => true
  | .error _ => false

/-- The error message of a failed run (empty string on success). -/
def errMsg {α : Type} : Except (String × MP4Writer) α → String
  | .error e => e.1
  | .ok _ => ""

/-- The produced file of a successful `finalize` (empty on failure). -/
def finOk (w : MP4Writer) : List Nat :=
  match finalize w with
  | .ok f => f
  | .error _ => []

/-! ### Concrete inputs for the end-to-end and failing-input runs -/

/-- The SPS NALU of the spec's three-NALU example (`67 42 00 1e`). -/
def sps0 : List Nat := [0x67, 0x42, 0x00, 0x1e]

/-- The PPS NALU of the spec's three-NALU example (`68 ee 3c 80`). -/
def pps0 : List Nat := [0x68, 0xee, 0x3c, 0x80]

/-- The IDR slice NALU of the spec's three-NALU example (`65 88 84`). -/
def idr0 : List Nat := [0x65, 0x88, 0x84]

/-- Fresh writer at 640x480, 30 fps, timescale 1000 (the default). -/
def demoW0 : MP4Writer := mkWriter 640 480 30 1000

/-- `demoW0` after `add_nalu(sps0)`. -/
def demoW1 : MP4Writer := addOk demoW0 sps0

/-- `demoW1` after `add_nalu(pps0)`. -/
def demoW2 : MP4Writer := addOk demoW1 pps0

/-- The writer of the spec's three-NALU example: SPS, PPS, one IDR slice. -/
def demoWriter : MP4Writer := addOk demoW2 idr0

/-- `demoWriter` after a second IDR slice (two recorded samples). -/
def demoWriter2 : MP4Writer := addOk demoWriter idr0

/-- A writer that observed SPS and PPS but no frame. -/
def demoPsOnly : MP4Writer := addOk (addOk (mkWriter 1 1 1 1) [103]) [104]

/-- An SPS NALU of 16001 bytes (type 7): its AVCC record makes the
serialized moov exceed the 16 KiB reserved region. -/
def bigSps : List Nat := 0x67 :: List.replicate 16000 0

/-- Writer fed `bigSps`, a PPS and one IDR slice: moov overflows the
reserved region at finalize time. -/
def bigWriter : MP4Writer := addOk (addOk (addOk demoW0 bigSps) pps0) idr0

/-- Writer states reachable through the public constructor and successful
`add_nalu` calls. -/
inductive Reachable : MP4Writer → Prop
  | init : ∀ width height fps timescale, Reachable (mkWriter width height fps timescale)
  | step : ∀ w w2 nalu, Reachable w → add_nalu w nalu = .ok w2 → Reachable w2

/-! ## Supporting lemmas -/

/-- Full characterization of the scanning loop: a reported hit is the
earliest position in the scanned range `[pos, len-3)` that triggers either
start-code test, and `none` means no position in that range triggers one. -/
theorem find_loop_spec (b : List Nat) :
    ∀ fuel pos, b.length - 3 ≤ fuel + pos →
      (∀ p l, find_loop b fuel pos = some (p, l) →
          pos ≤ p ∧ scanHit b p l ∧ ∀ q, pos ≤ q → q < p → ¬ scanHitAny b q) ∧
      (find_loop b fuel pos = none →
          ∀ q, pos ≤ q → q < b.length - 3 → ¬ scanHitAny b q) := by
  intro fuel
  induction fuel with
  | zero =>
    intro pos hle
    constructor
    · intro p l h
      simp [find_loop] at h
    · intro _ q hq hq2
      omega
  | succ fuel ih =>
    intro pos hle
    by_cases h1 : pos < b.length - 3
    · by_cases h2 : b.getD pos 0 = 0 ∧ b.getD (pos + 1) 0 = 0 ∧ b.getD (pos + 2) 0 = 1
      · have hloop : find_loop b (fuel + 1) pos = some (pos, 3) := by
          simp only [find_loop]
          rw [if_pos h1, if_pos h2]
        constructor
        · intro p l h
          rw [hloop] at h
          simp only [Option.some.injEq, Prod.mk.injEq] at h
          obtain ⟨hp, hl⟩ := h
          subst hp; subst hl
          exact ⟨le_refl _, Or.inl ⟨rfl, h1, h2⟩, fun q hq hqp => absurd (lt_of_le_of_lt hq hqp) (lt_irrefl _)⟩
        · intro h
          rw [hloop] at h
          simp at h
      · by_cases h3 : pos < b.length - 4 ∧ b.getD pos 0 = 0 ∧ b.getD (pos + 1) 0 = 0
            ∧ b.getD (pos + 2) 0 = 0 ∧ b.getD (pos + 3) 0 = 1
        · have hloop : find_loop b (fuel + 1) pos = some (pos, 4) := by
            simp only [find_loop]
            rw [if_pos h1, if_neg h2, if_pos h3]
          constructor
          · intro p l h
            rw [hloop] at h
            simp only [Option.some.injEq, Prod.mk.injEq] at h
            obtain ⟨hp, hl⟩ := h
            subst hp; subst hl
            exact ⟨le_refl _,
              Or.inr ⟨rfl, h1, h3.1, ⟨h3.2.1, h3.2.2.1, h3.2.2.2.1, h3.2.2.2.2⟩, h2⟩,
              fun q hq hqp => absurd (lt_of_le_of_lt hq hqp) (lt_irrefl _)⟩
          · intro h
            rw [hloop] at h
            simp at h
        · have hloop : find_loop b (fuel + 1) pos = find_loop b fuel (pos + 1) := by
            simp only [find_loop]
            rw [if_pos h1, if_neg h2, if_neg h3]
          have hposmiss : ¬ scanHitAny b pos := by
            intro hc
            rcases hc with hc3 | ⟨hc4a, hc4b⟩
            · exact h2 hc3
            · exact h3 ⟨hc4a, hc4b.1, hc4b.2.1, hc4b.2.2.1, hc4b.2.2.2⟩
          obtain ⟨ihs, ihn⟩ := ih (pos + 1) (by omega)
          constructor
          · intro p l h
            rw [hloop] at h
            obtain ⟨hp, hhit, hmin⟩ := ihs p l h
            refine ⟨by omega, hhit, ?_⟩
            intro q hq hqp
            rcases Nat.eq_or_lt_of_le hq with heq | hlt
            · subst heq; exact hposmiss
            · exact hmin q (by omega) hqp
          · intro h q hq hq3
            rw [hloop] at h
            rcases Nat.eq_or_lt_of_le hq with heq | hlt
            · subst heq; exact hposmiss
            · exact ihn h q (by omega) hq3
    · have hloop : find_loop b (fuel + 1) pos = none := by
        simp only [find_loop]
        rw [if_neg h1]
      constructor
      · intro p l h
        rw [hloop] at h
        simp at h
      · intro _ q hq hq3
        omega

/-- A reported start code lies strictly inside the buffer: `p + l < len`. -/
theorem find_some_bounds {b : List Nat} {s p l : Nat}
    (h : find_nalu_start b s = some (p, l)) :
    s ≤ p ∧ p + l < b.length ∧ 0 < l := by
  obtain ⟨hsp, hhit, _⟩ :=
    (find_loop_spec b (b.length + 1) s (by omega)).1 p l h
  rcases hhit with ⟨hl, hlt, _⟩ | ⟨hl, _, hlt4, _, _⟩ <;> omega

/-- When the start code is strictly inside the buffer, `parse_nalu` yields a
record (the `(None, None, buffer)` branch is not taken). -/
theorem parse_nalu_isSome {b : List Nat} {p l : Nat} (h : p + l < b.length) :
    (parse_nalu b p l).1.isSome = true := by
  unfold parse_nalu
  rw [if_neg (by omega)]
  cases hf : find_nalu_start b (p + l + 1) with
  | none => simp [hf]
  | some v => obtain ⟨next, l2⟩ := v; simp [hf]

/-- When the start code is strictly inside the buffer, the remaining buffer
returned by `parse_nalu` is strictly shorter than the input buffer. -/
theorem parse_nalu_rem_lt {b : List Nat} {p l : Nat} (h : p + l < b.length) :
    (parse_nalu b p l).2.length < b.length := by
  unfold parse_nalu
  rw [if_neg (by omega)]
  cases hf : find_nalu_start b (p + l + 1) with
  | none => simp [hf]; omega
  | some v =>
    obtain ⟨next, l2⟩ := v
    have hb := find_some_bounds hf
    simp [hf]
    omega

/-- The segmentation loop is insensitive to the fuel bound as soon as the
fuel exceeds the buffer length: the loop genuinely terminates, because every
iteration that finds a start code produces a record and strictly shrinks the
buffer. -/
theorem read_nalu_loop_fuel (n : Nat) :
    ∀ (b : List Nat), b.length ≤ n → ∀ fuel fuel2 cur, b.length < fuel → b.length < fuel2 →
      read_nalu_loop fuel b cur = read_nalu_loop fuel2 b cur := by
  induction n with
  | zero =>
    intro b hb fuel fuel2 cur hf1 hf2
    obtain ⟨f, rfl⟩ : ∃ f, fuel = f + 1 := ⟨fuel - 1, by omega⟩
    obtain ⟨f2, rfl⟩ : ∃ f2, fuel2 = f2 + 1 := ⟨fuel2 - 1, by omega⟩
    rcases hf : find_nalu_start b cur with _ | ⟨p, l⟩
    · simp only [read_nalu_loop, hf]
    · have := find_some_bounds hf
      omega
  | succ n ih =>
    intro b hb fuel fuel2 cur hf1 hf2
    obtain ⟨f, rfl⟩ : ∃ f, fuel = f + 1 := ⟨fuel - 1, by omega⟩
    obtain ⟨f2, rfl⟩ : ∃ f2, fuel2 = f2 + 1 := ⟨fuel2 - 1, by omega⟩
    rcases hf : find_nalu_start b cur with _ | ⟨p, l⟩
    · simp only [read_nalu_loop, hf]
    · have hbnd := find_some_bounds hf
      have hrem := parse_nalu_rem_lt (b := b) (p := p) (l := l) (by omega)
      have hsome := parse_nalu_isSome (b := b) (p := p) (l := l) (by omega)
      rcases hp : parse_nalu b p l with ⟨_ | ⟨ty, payload⟩, snd⟩
      · rw [hp] at hsome
        simp at hsome
      · rw [hp] at hrem
        have hrem2 : snd.length < b.length := by simpa using hrem
        simp only [read_nalu_loop, hf, hp]
        rw [ih snd (by omega) f f2 0 (by omega) (by omega)]

/-- Folding `frame_step` over the buffered NALUs changes only `file`, `tell`
and `current_offset`; all other fields are preserved. -/
theorem frame_fold_fields (l : List (List Nat)) :
    ∀ acc : MP4Writer,
      (l.foldl frame_step acc).sample_sizes = acc.sample_sizes ∧
      (l.foldl frame_step acc).sample_offsets = acc.sample_offsets ∧
      (l.foldl frame_step acc).frame_count = acc.frame_count ∧
      (l.foldl frame_step acc).nalu_buffer = acc.nalu_buffer ∧
      (l.foldl frame_step acc).sps = acc.sps ∧
      (l.foldl frame_step acc).pps = acc.pps ∧
      (l.foldl frame_step acc).i_frame_ids = acc.i_frame_ids := by
  induction l with
  | nil => intro acc; simp
  | cons n t ih =>
    intro acc
    simp only [List.foldl_cons]
    have := ih (frame_step acc n)
    simpa [frame_step] using this

/-- Field-level description of `_write_frame` on a non-empty NALU buffer. -/
theorem write_frame_fields (w : MP4Writer) (h : w.nalu_buffer ≠ []) :
    (write_frame w).sample_sizes
        = w.sample_sizes ++ [w.nalu_buffer.foldl (fun s n => s + (4 + n.length)) 0] ∧
    (write_frame w).sample_offsets = w.sample_offsets ++ [w.current_offset] ∧
    (write_frame w).frame_count = w.frame_count + 1 ∧
    (write_frame w).nalu_buffer = [] ∧
    (write_frame w).sps = w.sps ∧
    (write_frame w).pps = w.pps ∧
    (write_frame w).i_frame_ids = w.i_frame_ids := by
  have hbe : w.nalu_buffer.isEmpty = false := by
    cases hnb : w.nalu_buffer with
    | nil => exact absurd hnb h
    | cons a t => rfl
  obtain ⟨h1, h2, h3, h4, h5, h6, h7⟩ := frame_fold_fields w.nalu_buffer
    { w with sample_offsets := w.sample_offsets ++ [w.current_offset] }
  simp [write_frame, hbe, h1, h2, h3, h4, h5, h6, h7]


/-- Invariant of reachable writer states: the access-unit buffer is empty
(every slice NALU is flushed immediately) and the sample-table aggregates
stay aligned: `frame_count = |sample_sizes| = |sample_offsets|`. -/
theorem reachable_inv {w : MP4Writer} (h : Reachable w) :
    w.nalu_buffer = [] ∧ w.frame_count = w.sample_sizes.length ∧
      w.frame_count = w.sample_offsets.length := by
  induction h with
  | init width height fps timescale => exact ⟨rfl, rfl, rfl⟩
  | step w w2 nalu hr hstep ih =>
    obtain ⟨hbuf, hsz, hoff⟩ := ih
    unfold add_nalu at hstep
    by_cases h0 : nalu.length = 0
    · rw [if_pos h0] at hstep
      cases hstep
      exact ⟨hbuf, hsz, hoff⟩
    rw [if_neg h0] at hstep
    by_cases h7 : nalu.getD 0 0 % 32 = 7
    · rw [if_pos h7] at hstep
      cases hstep
      exact ⟨hbuf, hsz, hoff⟩
    rw [if_neg h7] at hstep
    by_cases h8 : nalu.getD 0 0 % 32 = 8
    · rw [if_pos h8] at hstep
      cases hstep
      exact ⟨hbuf, hsz, hoff⟩
    rw [if_neg h8] at hstep
    by_cases h15 : nalu.getD 0 0 % 32 = 1 ∨ nalu.getD 0 0 % 32 = 5
    · rw [if_pos h15] at hstep
      by_cases h5m : nalu.getD 0 0 % 32 = 5 ∧
          ({ w with nalu_buffer := w.nalu_buffer ++ [nalu] }.sps = none ∨
           { w with nalu_buffer := w.nalu_buffer ++ [nalu] }.pps = none)
      · rw [if_pos h5m] at hstep
        cases hstep
      · rw [if_neg h5m] at hstep
        obtain ⟨hw1, hw2, hw3, hw4, hw5, hw6, hw7⟩ :=
          write_frame_fields { w with nalu_buffer := w.nalu_buffer ++ [nalu] } (by simp)
        cases hstep
        by_cases h5 : nalu.getD 0 0 % 32 = 5
        · rw [if_pos h5]
          refine ⟨by simp only [hw4], ?_, ?_⟩
          · simp only [hw3, hw1, List.length_append, List.length_cons, List.length_nil]
            omega
          · simp only [hw3, hw2, List.length_append, List.length_cons, List.length_nil]
            omega
        · rw [if_neg h5]
          refine ⟨hw4, ?_, ?_⟩
          · simp only [hw3, hw1, List.length_append, List.length_cons, List.length_nil]
            omega
          · simp only [hw3, hw2, List.length_append, List.length_cons, List.length_nil]
            omega
    · rw [if_neg h15] at hstep
      cases hstep
      exact ⟨hbuf, hsz, hoff⟩

/-- Length of a positional overwrite. -/
theorem writeAt_length (f : List Nat) (p : Nat) (d : List Nat) :
    (writeAt f p d).length = max f.length (p + d.length) := by
  simp [writeAt]
  omega

/-- A positional overwrite places `data` verbatim at position `pos`. -/
theorem writeAt_extract (f : List Nat) (p : Nat) (d : List Nat) (h : p ≤ f.length) :
    ((writeAt f p d).drop p).take d.length = d := by
  have h0 : p - f.length = 0 := by omega
  have ht : (f.take p).length = p := by
    rw [List.length_take]
    omega
  have key : ∀ (a b : List Nat), a.length = p → (a ++ b).drop p = b := by
    intro a b hab
    rw [← hab, List.drop_left]
  unfold writeAt
  rw [h0]
  simp only [List.replicate_zero, List.nil_append, List.append_assoc]
  rw [key _ _ ht, List.take_left]

/-- `readBE32` inverts `be32` on values below `2^32`. -/
theorem readBE32_be32 (n : Nat) (h : n < 4294967296) : readBE32 (be32 n) = n := by
  simp [readBE32, be32]
  omega

/-- Each `be32` block contributes 4 bytes to a flattened table. -/
theorem flatten_map_be32_length (l : List Nat) :
    ((l.map be32).flatten).length = 4 * l.length := by
  induction l with
  | nil => simp
  | cons a t ih =>
    simp [be32, ih]
    omega

/-- `addOk` agrees with a successful `add_nalu`. -/
theorem addOk_eq {w w2 : MP4Writer} {nalu : List Nat}
    (h : add_nalu w nalu = .ok w2) : addOk w nalu = w2 := by
  simp [addOk, h]

/-- `add_nalu` on an SPS NALU (type 7) only replaces the cached SPS. -/
theorem add_nalu_sps (w : MP4Writer) (nalu : List Nat)
    (h0 : nalu.length ≠ 0) (h7 : nalu.getD 0 0 % 32 = 7) :
    add_nalu w nalu = .ok { w with sps := some nalu } := by
  unfold add_nalu
  rw [if_neg h0]
  rw [if_pos h7]

/-- `add_nalu` on a PPS NALU (type 8) only replaces the cached PPS. -/
theorem add_nalu_pps (w : MP4Writer) (nalu : List Nat)
    (h0 : nalu.length ≠ 0) (h8 : nalu.getD 0 0 % 32 = 8) :
    add_nalu w nalu = .ok { w with pps := some nalu } := by
  unfold add_nalu
  rw [if_neg h0]
  rw [if_neg (by omega), if_pos h8]

/-- `add_nalu` on an IDR NALU (type 5) with both parameter sets cached:
the NALU is appended, flushed by `_write_frame`, and the new frame index is
recorded in `i_frame_ids`. -/
theorem add_nalu_idr_ok (w : MP4Writer) (nalu : List Nat)
    (h0 : nalu.length ≠ 0) (h5 : nalu.getD 0 0 % 32 = 5)
    (hs : w.sps ≠ none) (hp : w.pps ≠ none) :
    add_nalu w nalu = .ok
      { write_frame { w with nalu_buffer := w.nalu_buffer ++ [nalu] } with
        i_frame_ids :=
          (write_frame { w with nalu_buffer := w.nalu_buffer ++ [nalu] }).i_frame_ids ++
            [(write_frame { w with nalu_buffer := w.nalu_buffer ++ [nalu] }).frame_count] } := by
  unfold add_nalu
  rw [if_neg h0]
  rw [if_neg (by omega), if_neg (by omega), if_pos (by omega)]
  rw [if_neg (by
    intro hc
    rcases hc.2 with hcs | hcp
    · exact hs hcs
    · exact hp hcp)]
  simp only [List.getD]
  have h5b : (nalu.get? 0).getD 0 % 32 = 5 := by simpa [List.getD] using h5
  rw [if_pos h5b]

/-- `finalize` on a flushed state with cached parameter sets and at least one
frame succeeds and produces `finalize_file`. -/
theorem finalize_ok (w : MP4Writer) (hbuf : w.nalu_buffer = [])
    (hs : w.sps ≠ none) (hp : w.pps ≠ none) (hfc : w.frame_count ≠ 0) :
    finalize w = .ok (finalize_file w) := by
  unfold finalize
  rw [hbuf]
  simp only [List.isEmpty_nil, if_true]
  rw [if_neg (by
    intro hc
    rcases hc with hcs | hcp
    · exact hs hcs
    · exact hp hcp)]
  rw [if_neg hfc]

/-- Each `be32` entry of a table contributes 4 bytes. -/
theorem sum_map_length_be32 (l : List Nat) :
    (List.map (List.length ∘ be32) l).sum = 4 * l.length := by
  induction l with
  | nil => simp
  | cons a t ih =>
    simp [be32, ih]
    omega

/-- `be32` always yields 4 bytes. -/
theorem be32_length (n : Nat) : (be32 n).length = 4 := rfl

/-- `be16` always yields 2 bytes. -/
theorem be16_length (n : Nat) : (be16 n).length = 2 := rfl

/-- Length of the serialized `moov` payload as a function of the cached
parameter sets and the table sizes: a fixed 594-byte skeleton plus the SPS
and PPS bytes, 4 bytes per `stss` entry and 4 bytes per `stsz` entry. -/
theorem write_moov_data_length (w : MP4Writer) (sps pps : List Nat)
    (hs : w.sps = some sps) (hp : w.pps = some pps) (hlen : 4 ≤ sps.length) :
    (write_moov_data w).length =
      594 + sps.length + pps.length + 4 * w.i_frame_ids.length
        + 4 * w.sample_sizes.length := by
  simp only [write_moov_data, write_mvhd, write_trak, write_tkhd, write_mdia,
    write_mdhd, write_hdlr, write_minf, write_vmhd, write_dinf, write_stbl,
    write_stsd, write_stts, write_stss, write_stsc, write_stsz, write_stco,
    create_box, create_avcc, hs, hp, Option.getD_some, videoHandlerName,
    compressorName, mvhdTag, trakTag, tkhdTag, mdiaTag, mdhdTag, hdlrTag,
    videTag, minfTag, vmhdTag, dinfTag, drefTag, urlTag, stblTag, stsdTag,
    avc1Tag, avcCTag, sttsTag, stssTag, stscTag, stszTag, stcoTag,
    List.length_append, List.length_replicate, be32_length,
    be16_length, List.length_cons, List.length_nil, List.length_take,
    List.length_drop, flatten_map_be32_length]
  omega

/-- Serialized box length is always `8 + len(payload)`. -/
theorem create_box_length (tag data : List Nat) (ht : tag.length = 4) :
    (create_box tag data).length = 8 + data.length := by
  simp [create_box, be32, ht]
  omega

/-- Effect of `_write_frame` on the output file for a single buffered NALU:
4-byte big-endian length prefix plus the NALU bytes, written at the cursor. -/
theorem write_frame_file_single (w : MP4Writer) (n : List Nat)
    (h : w.nalu_buffer = [n]) :
    (write_frame w).file = writeAt w.file w.tell (be32 n.length ++ n) ∧
    (write_frame w).tell = w.tell + (be32 n.length ++ n).length ∧
    (write_frame w).current_offset
      = w.current_offset + (w.tell + (be32 n.length ++ n).length) := by
  simp [write_frame, h, frame_step]

/-- The file assembled by the tail of `finalize`: moov backpatch, then the
`free` filler box, then the mdat header at the fixed reserved boundary. -/
theorem finalize_file_eq (w : MP4Writer) :
    finalize_file w =
      writeAt
        (writeAt
          (writeAt w.file w.moov_position (create_box moovTag (write_moov_data w)))
          (w.moov_position + (8 + (write_moov_data w).length))
          (create_box freeTag
            (List.replicate (16 * 1024 - (8 + (write_moov_data w).length) - 8) 0)))
        (w.moov_position + 16 * 1024)
        (be32 (w.current_offset - w.moov_position - 16 * 1024 - 8 + 8) ++ mdatTag) := rfl

/-! ## Claim theorems -/

/-- Claim C3 (code_bug).  The reader's records keep only the 5-bit NALU type
and no header byte, so two streams whose headers differ in the upper three
bits (nal_ref_idc) produce identical record lists: byte-exact reconstruction
of `start code ++ header ++ payload` from the records is impossible, and the
repository's own driver (`main.py` reads `nalu["header"]`) expects a field
the reader never stores. -/
theorem c3_reader_loses_header_bits :
    read_nalu_list [0, 0, 1, 0x67, 0xAA] = read_nalu_list [0, 0, 1, 0x07, 0xAA] ∧
    (read_nalu_list [0, 0, 1, 0x67, 0xAA]).length = 1 ∧
    [0, 0, 1, 0x67, 0xAA] ≠ ([0, 0, 1, 0x07, 0xAA] : List Nat) := by
  decide

/-- Claim C4, counterexample.  Adding a type-5 NALU to a fresh writer (no
SPS/PPS) does fail, but the writer state is not left unchanged: the NALU has
already been appended to the access-unit buffer. -/
theorem c4_counterexample :
    isOkE (add_nalu (mkWriter 640 480 30 1000) [0x65, 0x88, 0x84]) = false ∧
    (addOk (mkWriter 640 480 30 1000) [0x65, 0x88, 0x84]).nalu_buffer
      = [[0x65, 0x88, 0x84]] ∧
    (mkWriter 640 480 30 1000).nalu_buffer = [] := by
  decide

/-- Claim C4, amended.  With SPS or PPS missing, `add_nalu` on a type-5 NALU
raises `MissingParameterSets`; no bytes are written and no sample recorded —
the error state differs from the input state only in `nalu_buffer`, to which
the NALU has already been appended. -/
theorem c4_missing_ps_state_change (w : MP4Writer) (nalu : List Nat)
    (h0 : nalu.length ≠ 0) (h5 : nalu.getD 0 0 % 32 = 5)
    (hmiss : w.sps = none ∨ w.pps = none) :
    add_nalu w nalu = .error ("IDR frame found but SPS/PPS not available",
      { w with nalu_buffer := w.nalu_buffer ++ [nalu] }) := by
  unfold add_nalu
  rw [if_neg h0, if_neg (by omega), if_neg (by omega), if_pos (by omega)]
  rw [if_pos ⟨h5, hmiss⟩]

/-- Witness for the amended claim C4 at a concrete input. -/
theorem c4_witness :
    add_nalu (mkWriter 1 1 1 1) [101] = .error ("IDR frame found but SPS/PPS not available",
      { mkWriter 1 1 1 1 with
        nalu_buffer := (mkWriter 1 1 1 1).nalu_buffer ++ [[101]] }) :=
  c4_missing_ps_state_change (mkWriter 1 1 1 1) [101] (by decide) (by decide) (Or.inl rfl)

/-- Claim C5, counterexample.  A fresh writer has zero samples, yet
`finalize` fails with the `MissingParameterSets` message, not `NoSamples`:
the SPS/PPS check precedes the sample-count check. -/
theorem c5_counterexample :
    errMsg (finalize (mkWriter 640 480 30 1000)) = "SPS/PPS not available for MP4 creation" ∧
    (mkWriter 640 480 30 1000).frame_count = 0 ∧
    (mkWriter 640 480 30 1000).nalu_buffer = [] ∧
    "SPS/PPS not available for MP4 creation" ≠ "No frame data available for MP4 creation" := by
  refine ⟨rfl, rfl, rfl, by decide⟩

/-- Claim C5, amended.  When both parameter sets are cached, finalizing with
an empty sample table fails with the `NoSamples` message. -/
theorem c5_no_samples_requires_ps (w : MP4Writer) (hbuf : w.nalu_buffer = [])
    (hfc : w.frame_count = 0) (hs : w.sps ≠ none) (hp : w.pps ≠ none) :
    finalize w = .error ("No frame data available for MP4 creation", w) := by
  unfold finalize
  rw [hbuf]
  simp only [List.isEmpty_nil, if_true]
  rw [if_neg (by
    intro hc
    rcases hc with hcs | hcp
    · exact hs hcs
    · exact hp hcp)]
  rw [if_pos hfc]

/-- Witness for the amended claim C5 at a concrete input. -/
theorem c5_witness :
    finalize demoPsOnly = .error ("No frame data available for MP4 creation", demoPsOnly) :=
  c5_no_samples_requires_ps demoPsOnly (by decide) (by decide) (by decide) (by decide)

/-- Claim C7, counterexample.  A 3-byte start code occupying the buffer's
last three bytes is not found: the loop bound `pos < len(buffer) - 3` stops
one position short. -/
theorem c7_counterexample :
    code3At [0, 0, 1] 0 ∧ find_nalu_start [0, 0, 1] 0 = none :=
  ⟨⟨rfl, rfl, rfl⟩, by decide⟩

/-- Claim C7, amended.  The scanner returns the earliest position in the
range `[start_pos, len - 3)` at which either start-code test fires (3-byte
test first, the 4-byte test additionally bounded by `pos < len - 4`), and
`none` exactly when no position in that range fires; positions at or beyond
`len - 3` — including a 3-byte code in the final three bytes — are never
examined, so the scanner never reads past the buffer end. -/
theorem c7_scanner_contract (b : List Nat) (s : Nat) :
    (∀ p l, find_nalu_start b s = some (p, l) →
        s ≤ p ∧ scanHit b p l ∧ ∀ q, s ≤ q → q < p → ¬ scanHitAny b q) ∧
    (find_nalu_start b s = none →
        ∀ q, s ≤ q → q < b.length - 3 → ¬ scanHitAny b q) := by
  exact find_loop_spec b (b.length + 1) s (by omega)

/-- Witness for the amended claim C7 at a concrete input. -/
theorem c7_witness :
    0 ≤ 1 ∧ scanHit [9, 0, 0, 1, 9] 1 3 ∧
      ∀ q, 0 ≤ q → q < 1 → ¬ scanHitAny [9, 0, 0, 1, 9] q :=
  (c7_scanner_contract [9, 0, 0, 1, 9] 0).1 1 3 (by decide)

/-- Claim C10 (confirmed).  The segmentation loop terminates: whenever the
scanner reports a start code, `parse_nalu` yields a record (its no-record
branch is unreachable) and the remaining buffer is strictly shorter; hence
the fueled loop is insensitive to the fuel bound once it exceeds the buffer
length. -/
theorem c10_segmenter_termination (b : List Nat) :
    (∀ cur p l, find_nalu_start b cur = some (p, l) →
        p + l < b.length ∧ (parse_nalu b p l).1.isSome = true ∧
          (parse_nalu b p l).2.length < b.length) ∧
    (∀ fuel fuel2 cur, b.length < fuel → b.length < fuel2 →
        read_nalu_loop fuel b cur = read_nalu_loop fuel2 b cur) := by
  constructor
  · intro cur p l h
    have hb := find_some_bounds h
    exact ⟨by omega, parse_nalu_isSome (by omega), parse_nalu_rem_lt (by omega)⟩
  · intro fuel fuel2 cur h1 h2
    exact read_nalu_loop_fuel b.length b (le_refl _) fuel fuel2 cur h1 h2

/-- Witness for claim C10 at a concrete input. -/
theorem c10_witness :
    (0 + 3 < [0, 0, 1, 5, 6].length ∧
      (parse_nalu [0, 0, 1, 5, 6] 0 3).1.isSome = true ∧
      (parse_nalu [0, 0, 1, 5, 6] 0 3).2.length < [0, 0, 1, 5, 6].length) ∧
    read_nalu_loop 6 [0, 0, 1, 5, 6] 0 = read_nalu_loop 7 [0, 0, 1, 5, 6] 0 :=
  ⟨(c10_segmenter_termination [0, 0, 1, 5, 6]).1 0 0 3 (by decide),
   (c10_segmenter_termination [0, 0, 1, 5, 6]).2 6 7 0 (by decide) (by decide)⟩

/-- Claim C9 (confirmed).  End-to-end three-NALU example at 640x480/30fps:
one sample; `stsz` has one entry equal to `4 + len(IDR)`; `stss` lists the
single sync index 1; the AVCC profile/compatibility/level bytes are SPS
bytes 1..3 (`42 00 1e`). -/
theorem c9_end_to_end :
    demoWriter.frame_count = 1 ∧
    isOkE (finalize demoWriter) = true ∧
    (write_stsz demoWriter).length = 24 ∧
    readBE32 ((write_stsz demoWriter).drop 16) = 1 ∧
    readBE32 ((write_stsz demoWriter).drop 20) = 4 + idr0.length ∧
    (write_stss demoWriter).length = 20 ∧
    readBE32 ((write_stss demoWriter).drop 12) = 1 ∧
    readBE32 ((write_stss demoWriter).drop 16) = 1 ∧
    ((create_avcc (demoWriter.sps.getD []) (demoWriter.pps.getD [])).drop 1).take 3
      = [0x42, 0x00, 0x1e] ∧
    ((demoWriter.sps.getD []).drop 1).take 3 = [0x42, 0x00, 0x1e] := by
  decide

/-- Claim C8 (confirmed).  For every reachable writer whose `finalize`
succeeds, the emitted `stsc` box is a single entry
`(first_chunk 1, samples_per_chunk = frame_count, sample_description_index 1)`
with `frame_count` equal to the number of recorded samples, and the emitted
`stco` box is a single entry holding the first sample's recorded offset —
the consistent single-chunk pairing. -/
theorem c8_single_chunk_tables (w : MP4Writer) (hr : Reachable w)
    (hok : isOkE (finalize w) = true)
    (hfc : w.frame_count < 4294967296)
    (hoff : w.sample_offsets.getD 0 0 < 4294967296) :
    (write_stsc w).length = 28 ∧
    readBE32 ((write_stsc w).drop 12) = 1 ∧
    readBE32 ((write_stsc w).drop 16) = 1 ∧
    readBE32 ((write_stsc w).drop 20) = w.frame_count ∧
    readBE32 ((write_stsc w).drop 24) = 1 ∧
    w.frame_count = w.sample_sizes.length ∧
    w.frame_count = w.sample_offsets.length ∧
    (write_stco w).length = 20 ∧
    readBE32 ((write_stco w).drop 12) = 1 ∧
    readBE32 ((write_stco w).drop 16) = w.sample_offsets.getD 0 0 := by
  obtain ⟨hbuf, hsz, hof⟩ := reachable_inv hr
  simp only [List.getD, List.get?_eq_getElem?] at hoff
  refine ⟨?_, ?_, ?_, ?_, ?_, hsz, hof, ?_, ?_, ?_⟩ <;>
    simp [write_stsc, write_stco, create_box, stscTag, stcoTag, be32, readBE32,
      List.getD] <;>
    omega

/-- Witness for claim C8 at the three-NALU example writer. -/
theorem c8_witness :
    (write_stsc demoWriter).length = 28 ∧
    readBE32 ((write_stsc demoWriter).drop 12) = 1 ∧
    readBE32 ((write_stsc demoWriter).drop 16) = 1 ∧
    readBE32 ((write_stsc demoWriter).drop 20) = demoWriter.frame_count ∧
    readBE32 ((write_stsc demoWriter).drop 24) = 1 ∧
    demoWriter.frame_count = demoWriter.sample_sizes.length ∧
    demoWriter.frame_count = demoWriter.sample_offsets.length ∧
    (write_stco demoWriter).length = 20 ∧
    readBE32 ((write_stco demoWriter).drop 12) = 1 ∧
    readBE32 ((write_stco demoWriter).drop 16) = demoWriter.sample_offsets.getD 0 0 :=
  c8_single_chunk_tables demoWriter
    (Reachable.step demoW2 demoWriter idr0
      (Reachable.step demoW1 demoW2 pps0
        (Reachable.step demoW0 demoW1 sps0 (Reachable.init 640 480 30 1000) rfl)
        rfl)
      rfl)
    (by decide) (by decide) (by decide)

/-- Field-level effect of a successful `add_nalu` on an SPS NALU. -/
theorem addOk_sps_fields (w : MP4Writer) (n : List Nat)
    (h0 : n.length ≠ 0) (h7 : n.getD 0 0 % 32 = 7) :
    (addOk w n).sps = some n ∧ (addOk w n).pps = w.pps ∧
    (addOk w n).file = w.file ∧ (addOk w n).tell = w.tell ∧
    (addOk w n).current_offset = w.current_offset ∧
    (addOk w n).nalu_buffer = w.nalu_buffer ∧
    (addOk w n).frame_count = w.frame_count ∧
    (addOk w n).sample_sizes = w.sample_sizes ∧
    (addOk w n).sample_offsets = w.sample_offsets ∧
    (addOk w n).i_frame_ids = w.i_frame_ids ∧
    (addOk w n).moov_position = w.moov_position := by
  rw [addOk_eq (add_nalu_sps w n h0 h7)]
  simp

/-- Field-level effect of a successful `add_nalu` on a PPS NALU. -/
theorem addOk_pps_fields (w : MP4Writer) (n : List Nat)
    (h0 : n.length ≠ 0) (h8 : n.getD 0 0 % 32 = 8) :
    (addOk w n).sps = w.sps ∧ (addOk w n).pps = some n ∧
    (addOk w n).file = w.file ∧ (addOk w n).tell = w.tell ∧
    (addOk w n).current_offset = w.current_offset ∧
    (addOk w n).nalu_buffer = w.nalu_buffer ∧
    (addOk w n).frame_count = w.frame_count ∧
    (addOk w n).sample_sizes = w.sample_sizes ∧
    (addOk w n).sample_offsets = w.sample_offsets ∧
    (addOk w n).i_frame_ids = w.i_frame_ids ∧
    (addOk w n).moov_position = w.moov_position := by
  rw [addOk_eq (add_nalu_pps w n h0 h8)]
  simp

/-- Field-level effect of a successful `add_nalu` on an IDR NALU when parameter
sets are cached and the buffer is flushed: the frame is written at the cursor,
one sample is recorded and the one-based sync index is appended. -/
theorem addOk_idr_fields (w : MP4Writer) (n : List Nat)
    (h0 : n.length ≠ 0) (h5 : n.getD 0 0 % 32 = 5)
    (hs : w.sps ≠ none) (hp : w.pps ≠ none) (hbuf : w.nalu_buffer = []) :
    (addOk w n).sps = w.sps ∧ (addOk w n).pps = w.pps ∧
    (addOk w n).file = writeAt w.file w.tell (be32 n.length ++ n) ∧
    (addOk w n).tell = w.tell + (4 + n.length) ∧
    (addOk w n).nalu_buffer = [] ∧
    (addOk w n).frame_count = w.frame_count + 1 ∧
    (addOk w n).sample_sizes = w.sample_sizes ++ [4 + n.length] ∧
    (addOk w n).sample_offsets = w.sample_offsets ++ [w.current_offset] ∧
    (addOk w n).i_frame_ids = w.i_frame_ids ++ [w.frame_count + 1] ∧
    (addOk w n).moov_position = w.moov_position := by
  rw [addOk_eq (add_nalu_idr_ok w n h0 h5 hs hp)]
  simp [write_frame, frame_step, hbuf, be32]
  omega

/-- Symbolic form of the three-NALU example's output file: the one frame is
written at cursor 16420 (right after the ftyp box and the 16 KiB + 8 reserved
region) as a 4-byte length prefix plus the IDR bytes. -/
theorem demo_file_facts :
    demoWriter.file = writeAt demoW0.file 16420 (be32 idr0.length ++ idr0) ∧
    demoWriter.file.length = 16427 := by
  have h := (addOk_idr_fields demoW2 idr0 (by decide) (by decide) (by decide)
    (by decide) (by decide)).2.2.1
  have hfile : demoWriter.file = writeAt demoW0.file 16420 (be32 idr0.length ++ idr0) := by
    rw [show demoWriter = addOk demoW2 idr0 from rfl, h]
    rw [show demoW2.file = demoW0.file from rfl, show demoW2.tell = 16420 from rfl]
  have hlen0 : demoW0.file.length = 16420 := by
    show ((create_box ftypTag ftyp_payload) ++ List.replicate (16 * 1024 + 8) 0).length
      = 16420
    rw [List.length_append, List.length_replicate]
    decide
  refine ⟨hfile, ?_⟩
  rw [hfile, writeAt_length, hlen0]
  decide

/-- Claim C1 (code_bug).  After SPS, PPS and two IDR slices the recorded
sample table is `offsets = [16420, 32847]`, `sizes = [7, 7]`: the second
recorded offset violates `offset[1] = offset[0] + size[0]` because
`_write_frame` executes `current_offset += output.tell()` (adding the file
position instead of the bytes written) — while the frame bytes are in fact
written contiguously at 16427 = offset[0] + size[0] in the file. -/
theorem c1_offset_accounting_bug :
    demoWriter2.sample_offsets = [16420, 32847] ∧
    demoWriter2.sample_sizes = [7, 7] ∧
    demoWriter2.sample_offsets.getD 1 0 ≠
      demoWriter2.sample_offsets.getD 0 0 + demoWriter2.sample_sizes.getD 0 0 ∧
    (demoWriter2.file.drop 16427).take 7 = be32 idr0.length ++ idr0 := by
  refine ⟨by decide, by decide, by decide, ?_⟩
  have h := (addOk_idr_fields demoWriter idr0 (by decide) (by decide) (by decide)
    (by decide) (by decide)).2.2.1
  rw [show demoWriter2 = addOk demoWriter idr0 from rfl, h]
  rw [show demoWriter.tell = 16427 from rfl]
  have hex := writeAt_extract demoWriter.file 16427 (be32 idr0.length ++ idr0)
    (by rw [demo_file_facts.2])
  exact hex

/-- Claim C2 (code_bug).  For the one-sample example container, the mdat
header written at offset `moov_position + 16*1024 = 16412` declares size
16435, while the accumulated sample bytes plus 8 are 15: the declared mdat
length does not equal the bytes the box occupies, again because of the
`current_offset += output.tell()` accounting slip. -/
theorem c2_mdat_size_bug :
    ((finOk demoWriter).drop 16412).take 8 = be32 16435 ++ mdatTag ∧
    demoWriter.sample_sizes.sum + 8 = 15 ∧
    demoWriter.moov_position + 16 * 1024 = 16412 ∧
    (16435 : Nat) ≠ 15 := by
  refine ⟨?_, by decide, by decide, by decide⟩
  have hfin : finOk demoWriter = finalize_file demoWriter := rfl
  rw [hfin, finalize_file_eq]
  have hmp : demoWriter.moov_position = 28 := by decide
  have hco : demoWriter.current_offset = 32847 := by decide
  have hml : (write_moov_data demoWriter).length = 610 := by
    rw [write_moov_data_length demoWriter sps0 pps0 (by decide) (by decide) (by decide)]
    decide
  rw [hmp, hco, hml]
  have harg : (32847 - 28 - 16 * 1024 - 8 + 8 : Nat) = 16435 := by decide
  have hpos : (28 + 16 * 1024 : Nat) = 16412 := by decide
  rw [harg, hpos]
  have hF2len : (writeAt
      (writeAt demoWriter.file 28 (create_box moovTag (write_moov_data demoWriter)))
      (28 + (8 + 610))
      (create_box freeTag (List.replicate (16 * 1024 - (8 + 610) - 8) 0))).length
      = 16427 := by
    rw [writeAt_length, writeAt_length, demo_file_facts.2,
      create_box_length _ _ (by decide), create_box_length _ _ (by decide), hml,
      List.length_replicate]
    decide
  have hex := writeAt_extract
    (writeAt
      (writeAt demoWriter.file 28 (create_box moovTag (write_moov_data demoWriter)))
      (28 + (8 + 610))
      (create_box freeTag (List.replicate (16 * 1024 - (8 + 610) - 8) 0)))
    16412 (be32 16435 ++ mdatTag) (by rw [hF2len]; omega)
  exact hex

/-- Claim C6 (code_bug).  With a 16001-byte SPS, one PPS and one IDR slice,
the serialized moov box (8 + payload) exceeds the 16 KiB reserved region,
yet `finalize` completes without any error: there is no `MoovTooLarge` check
— the `free` filler degenerates and the mdat header at
`moov_position + 16*1024` lands inside the moov bytes, corrupting them. -/
theorem c6_moov_overflow_unchecked :
    isOkE (finalize bigWriter) = true ∧
    16384 < 8 + (write_moov_data bigWriter).length := by
  have hbl : bigSps.length = 16001 := by
    show (0x67 :: List.replicate 16000 0 : List Nat).length = 16001
    rw [List.length_cons, List.length_replicate]
  have hz : bigSps.length ≠ 0 := by rw [hbl]; omega
  have h7 : bigSps.getD 0 0 % 32 = 7 := by decide
  obtain ⟨a1, a2, a3, a4, a5, a6, a7, a8, a9, a10, a11⟩ :=
    addOk_sps_fields demoW0 bigSps hz h7
  obtain ⟨b1, b2, b3, b4, b5, b6, b7, b8, b9, b10, b11⟩ :=
    addOk_pps_fields (addOk demoW0 bigSps) pps0 (by decide) (by decide)
  have hBsps : (addOk (addOk demoW0 bigSps) pps0).sps = some bigSps := by rw [b1, a1]
  have hBbuf : (addOk (addOk demoW0 bigSps) pps0).nalu_buffer = [] := by
    rw [b6, a6]
    rfl
  obtain ⟨i1, i2, i3, i4, i5, i6, i7, i8, i9, i10⟩ :=
    addOk_idr_fields (addOk (addOk demoW0 bigSps) pps0) idr0 (by decide) (by decide)
      (by rw [hBsps]; exact Option.some_ne_none bigSps)
      (by rw [b2]; exact Option.some_ne_none pps0) hBbuf
  have hbw : bigWriter = addOk (addOk (addOk demoW0 bigSps) pps0) idr0 := rfl
  have hsps : bigWriter.sps = some bigSps := by rw [hbw, i1, hBsps]
  have hpps : bigWriter.pps = some pps0 := by rw [hbw, i2, b2]
  have hbuf : bigWriter.nalu_buffer = [] := by rw [hbw]; exact i5
  have hfc : bigWriter.frame_count = 1 := by
    rw [hbw, i6, b7, a7]
    rfl
  have hifl : bigWriter.i_frame_ids = [1] := by
    rw [hbw, i9, b10, a10, b7, a7]
    rfl
  have hsz : bigWriter.sample_sizes = [4 + idr0.length] := by
    rw [hbw, i7, b8, a8]
    rfl
  constructor
  · rw [finalize_ok bigWriter hbuf
      (by rw [hsps]; exact Option.some_ne_none bigSps)
      (by rw [hpps]; exact Option.some_ne_none pps0)
      (by rw [hfc]; omega)]
    rfl
  · rw [write_moov_data_length bigWriter bigSps pps0 hsps hpps (by rw [hbl]; omega)]
    rw [hifl, hsz, hbl]
    decide
